import Mathlib

/-!
Shallow embedding of `src/app.py` (the "Kya Khaoge" food-recommendation app).

The program is a single-file Streamlit app.  Its effectful collaborators are
modelled as explicit parameters:

* the generative language model (`genai.GenerativeModel.generate_content`) is a
  function `GenModel := String → Except String String` mapping a prompt to
  either the reply text or a transport/model error message;
* `json.loads` is a parameter `jsonLoads : String → Option Json`, where `none`
  models the library raising `JSONDecodeError`;
* the CSV fetch inside `load_data` (secret lookup plus `pandas.read_csv`) is a
  parameter `fetch : Except String Table`, `.error` modelling any raised
  exception;
* wall-clock time is the precomputed `current_time_str : String` parameter,
  exactly as the handler passes it to `get_recommendations`.

Python values decoded from JSON are modelled by the inductive type `Json`
(numbers as `Int`; this suffices for every claim).  Python string methods used
by the source (`strip`, `replace`, `lower`) are re-implemented structurally
(`pyStrip`, `pyReplace`, `pyLower`) so that all definitions reduce inside the
kernel; they agree with the Python methods on the ASCII inputs that occur here.
Uncaught Python exceptions of the handler itself (`KeyError`,
`AttributeError`, `TypeError`) are modelled by `Except PyErr`.
-/

/-- A decoded JSON value, as returned by `json.loads`.  Objects are association
lists; the model replies considered here have duplicate-free keys, so
`List.lookup` matches Python dict access. -/
inductive Json where
  | null
  | bool (b : Bool)
  | num (n : Int)
  | str (s : String)
  | arr (elems : List Json)
  | obj (fields : List (String × Json))

/-- Python truthiness (`bool(x)`) of a decoded JSON value: `None`, `False`,
`0`, `""`, `[]` and `\x7b\x7d` are falsy, everything else truthy. -/
def pyTruthy : Json → Bool
  | .null => false
  | .bool b => b
  | .num n => !(n == 0)
  | .str s => !s.data.isEmpty
  | .arr elems => !elems.isEmpty
  | .obj fields => !fields.isEmpty

/-- Python whitespace as used by `str.strip()` with no argument. -/
def pyIsSpace (c : Char) : Bool :=
  c == ' ' || c == '\t' || c == '\n' || c == '\r' || c == '\x0b' || c == '\x0c'

/-- Models Python `str.strip()`: drop leading and trailing whitespace. -/
def pyStrip (s : String) : String :=
  ⟨((s.data.dropWhile pyIsSpace).reverse.dropWhile pyIsSpace).reverse⟩

/-- Fuel-indexed worker for `pyReplace`; the fuel starts at the length of the
input, which bounds the number of steps since the pattern is nonempty. -/
def pyReplaceAux (pat rep : List Char) : Nat → List Char → List Char
  | 0, l => l
  | _ + 1, [] => []
  | fuel + 1, c :: rest =>
    if pat.isPrefixOf (c :: rest) then
      rep ++ pyReplaceAux pat rep fuel ((c :: rest).drop pat.length)
    else
      c :: pyReplaceAux pat rep fuel rest

/-- Models Python `str.replace(pat, rep)`: replace every non-overlapping
occurrence, left to right.  (The source only calls it with nonempty patterns;
for an empty pattern this model returns the string unchanged.) -/
def pyReplace (s pat rep : String) : String :=
  if pat.data.isEmpty then s
  else ⟨pyReplaceAux pat.data rep.data s.data.length s.data⟩

/-- Models Python `str.lower()` (ASCII case folding; agrees with Python on the
ASCII strings compared by the source). -/
def pyLower (s : String) : String :=
  ⟨s.data.map Char.toLower⟩

/-- The external generative model: prompt text to reply text or an error. -/
def GenModel : Type := String → Except String String

/-- A dataset row: one CSV record, column name to cell value. -/
abbrev Row : Type := List (String × Json)

/-- The food dataset (`pandas.DataFrame`), as its list of records. -/
abbrev Table : Type := List Row

/-- `DataFrame.empty` for the row-oriented table model. -/
def Table.isEmpty (t : Table) : Bool :=
  List.isEmpty t

/-- `load_data` (src/app.py lines 62-71): the `try` block reads the sheet URL
secret and downloads the CSV — both folded into `fetch` — and the `except`
block returns an empty DataFrame.  The function is total: it never propagates
an exception. -/
def load_data (fetch : Except String Table) : Table :=
  match fetch with
  | .ok df => df
  | .error _ => []

/-- Opening chunk of the extraction prompt f-string (src/app.py lines 75-80),
through the mandatory-location rule. -/
def extract_rules_head : String :=
  "\n    Extract location, budget (in INR), and food craving from the user\x27s message.\n    Respond ONLY with a valid JSON object like \x7b\"location\": \"...\", \"budget\": ..., \"craving\": \"...\"\x7d.\n\n    RULES:\n    - The \x27location\x27 is mandatory. If you cannot find a location, set its value to null.\n    "

/-- The budget-default rule line of the extraction prompt (src/app.py line 81). -/
def budget_rule : String :=
  "- **If the user does not mention a \x27budget\x27, assume it is 100 INR.**"

/-- The craving-default rule line of the extraction prompt (src/app.py line 82). -/
def craving_rule : String :=
  "- **If the user does not mention a specific \x27craving\x27, set the craving to \"anything\".**"

/-- The extraction prompt (src/app.py lines 75-85): the f-string with the user
message spliced in. -/
def extract_prompt (user_message : String) : String :=
  extract_rules_head ++ budget_rule ++ "\n    " ++ craving_rule ++
    "\n\n    USER MESSAGE: \"" ++ user_message ++ "\"\n    "

/-- The reply clean-up of src/app.py line 89:
`response.text.strip().replace("```json", "").replace("```", "").strip()`. -/
def strip_json_reply (text : String) : String :=
  pyStrip (pyReplace (pyReplace (pyStrip text) "```json" "") "```" "")

/-- `extract_user_info` (src/app.py lines 73-93): build the extraction prompt,
make exactly one model call, strip code fences from the reply, parse it as
JSON.  Any model/transport error, and any parse failure, is caught and
becomes `none` (the source shows an apology via `st.error` and returns
`None`). -/
def extract_user_info (gen : GenModel) (jsonLoads : String → Option Json)
    (user_message : String) : Option Json :=
  match gen (extract_prompt user_message) with
  | .error _ => none
  | .ok text => jsonLoads (strip_json_reply text)

mutual

/-- Renders a decoded JSON value back to JSON text; models the serialization
`DataFrame.to_json(orient="records")` relies on.  The exact text is opaque to
every claim (it is only embedded in the composer prompt). -/
def Json.render : Json → String
  | .null => "null"
  | .bool true => "true"
  | .bool false => "false"
  | .num n => toString n
  | .str s => "\"" ++ s ++ "\""
  | .arr elems => "[" ++ Json.renderElems elems ++ "]"
  | .obj fields => "\x7b" ++ Json.renderFields fields ++ "\x7d"

def Json.renderElems : List Json → String
  | [] => ""
  | [x] => Json.render x
  | x :: xs => Json.render x ++ ", " ++ Json.renderElems xs

def Json.renderFields : List (String × Json) → String
  | [] => ""
  | [(k, v)] => "\"" ++ k ++ "\": " ++ Json.render v
  | (k, v) :: fs => "\"" ++ k ++ "\": " ++ Json.render v ++ ", " ++ Json.renderFields fs

end

/-- Python `str(x)` for a decoded JSON value, as used by the f-string splices
`'{location}'` and `₹{budget}` of the composer prompt. -/
def pyStr : Json → String
  | .null => "None"
  | .bool true => "True"
  | .bool false => "False"
  | .num n => toString n
  | .str s => s
  | j => Json.render j

/-- `food_data.to_json(orient="records", indent=2)` of src/app.py line 100,
modelled as rendering the list of records. -/
def table_to_json (t : Table) : String :=
  Json.render (Json.arr (t.map Json.obj))

/-- The fixed reply for an empty dataset (src/app.py line 97). -/
def db_unavailable_text : String :=
  "Sorry, the food database is currently unavailable."

/-- Branch (a) of the craving instruction (src/app.py line 104). -/
def iconic_instruction : String :=
  "The user is open to anything, so recommend your most popular, iconic, or must-try dishes suitable for the location and time."

/-- Branch (b) of the craving instruction (src/app.py line 106). -/
def mood_instruction (craving : String) : String :=
  "The user is in the mood for \x27" ++ craving ++ "\x27."

/-- The dynamic craving instruction (src/app.py lines 103-107):
`if craving.lower() == 'anything': ... else: ...`. -/
def craving_instruction (craving : String) : String :=
  if pyLower craving = "anything" then iconic_instruction
  else mood_instruction craving

/-- The composer prompt f-string (src/app.py lines 109-132) with its four
splices: location, budget, the chosen craving instruction, the current time
string, and the serialized database. -/
def rec_prompt (location budget : Json) (craving_instruction_text : String)
    (current_time_str : String) (database_json : String) : String :=
  "\n    You are \x27Food Dost,\x27 a local Mumbaikar friend who knows all the best khau gallis. \n    Your tone should be friendly, casual, and use some Hinglish or Mumbai slang (like \x27boss\x27, \x27mast\x27, \x27ekdum\x27, \x27paisa vasool\x27).\n    Keep your answers short because the user is hungry.\n\n    A user is near \x27"
    ++ pyStr location ++ "\x27 with a budget of ₹" ++ pyStr budget ++
    ".\n    It is currently " ++ current_time_str ++ " in Mumbai.\n    " ++
    craving_instruction_text ++
    ". Use this time context to make your recommendations more relevant (e.g., suggest breakfast in the morning, dinner spots in the evening, or late-night snacks after 10 PM).\n\n    From the JSON DATABASE below, recommend up to 3 of the best options.\n\n    Your goal is to give variety. If the user\x27s budget allows, strongly prioritize recommending dishes from DIFFERENT stalls.\n\n    Respond ONLY with a list. For each recommendation, you MUST use the following format exactly, pulling the real link from the \x27gmaps_link\x27 field in the JSON:\n\n    **1. [Dish Name] at [Stall Name]**\n    * **Price:** ₹[Price]\n    * **Address:** [Landmark], [Location Area]\n    * **Why it\x27s Mast:** [A very short, 1-sentence reason why it\x27s a great choice for their specific craving and situation.]\n    * **Maps Link:** [Google Maps Link]\n\n    --- JSON DATABASE ---\n    "
    ++ database_json ++ "\n    "

/-- Uncaught Python exceptions the turn handler can raise. -/
inductive PyErr where
  | keyError (key : String)
  | attributeError
  | typeError

/-- `get_recommendations` (src/app.py lines 95-138).  The returned `Nat`
counts the model calls made on that path (0 or 1); the count is structurally
evident from the source, which contains a single `generate_content` call after
the empty-table check.  The argument `craving` is whatever JSON value the
extraction produced; `craving.lower()` on a non-string raises
`AttributeError`, which the source does not catch (the `try` starts only at
the model call). -/
def get_recommendations (gen : GenModel) (location budget craving : Json)
    (food_data : Table) (current_time_str : String) : Except PyErr (String × Nat) :=
  if food_data.isEmpty then
    .ok (db_unavailable_text, 0)
  else
    let database_json := table_to_json food_data
    match craving with
    | .str cravingText =>
      let instruction := craving_instruction cravingText
      let prompt := rec_prompt location budget instruction current_time_str database_json
      match gen prompt with
      | .ok text => .ok (text, 1)
      | .error e => .ok ("Sorry, boss! Couldn\x27t get a recommendation right now. Error: " ++ e, 1)
    | _ => .error .attributeError

/-- Python `d.get(k)`: `None` when the key is absent; raises `AttributeError`
when the receiver is not a dict (the handler reaches it only on truthy
values). -/
def dict_get : Json → String → Except PyErr (Option Json)
  | .obj fields, k => .ok (fields.lookup k)
  | _, _ => .error .attributeError

/-- Python `d[k]` on a decoded JSON value: raises `KeyError` when the key is
absent and `TypeError` when the receiver is not a dict. -/
def dict_item : Json → String → Except PyErr Json
  | .obj fields, k =>
    match fields.lookup k with
    | some v => .ok v
    | none => .error (.keyError k)
  | _, _ => .error .typeError

/-- One chat message of the session history. -/
structure Msg where
  role : String
  content : String

/-- The fixed greeting (src/app.py lines 146-149). -/
def greeting_text : String :=
  "Hello! I\x27m your Mumbai Food Compass. Tell me your location, budget, and what you\x27re craving, and I\x27ll find the perfect meal for you!"

/-- The initial session history: exactly the fixed greeting. -/
def initial_messages : List Msg :=
  [⟨"assistant", greeting_text⟩]

/-- The fixed clarification reply for a missing/unusable location
(src/app.py line 184). -/
def location_clarification_text : String :=
  "I\x27m sorry, I couldn\x27t understand your location. Could you please tell me where you are in Mumbai?"

/-- Everything observable about one processed turn: the updated history, the
assistant response (or the uncaught exception that aborted the turn), and how
many model calls each stage made. -/
structure TurnOutcome where
  messages : List Msg
  result : Except PyErr String
  extract_calls : Nat
  compose_calls : Nat

/-- The decision logic of one turn (src/app.py lines 164-184): run
`extract_user_info` (exactly one model call), apply the gate
`if user_info and user_info.get("location"):` with Python truthiness, and on a
truthy location evaluate `load_data()` and the three dict subscripts in source
order before calling `get_recommendations`; otherwise answer with the fixed
clarification.  Returns the response text together with the number of
composer model calls, or the uncaught exception. -/
def turn_step (gen : GenModel) (jsonLoads : String → Option Json)
    (fetch : Except String Table) (current_time_str : String)
    (prompt : String) : Except PyErr (String × Nat) :=
  match extract_user_info gen jsonLoads prompt with
  | none => .ok (location_clarification_text, 0)
  | some user_info =>
    if pyTruthy user_info then
      match dict_get user_info "location" with
      | .error e => .error e
      | .ok none => .ok (location_clarification_text, 0)
      | .ok (some loc) =>
        if pyTruthy loc then
          let food_data := load_data fetch
          match dict_item user_info "location" with
          | .error e => .error e
          | .ok locArg =>
            match dict_item user_info "budget" with
            | .error e => .error e
            | .ok budgetArg =>
              match dict_item user_info "craving" with
              | .error e => .error e
              | .ok cravingArg =>
                get_recommendations gen locArg budgetArg cravingArg food_data current_time_str
        else .ok (location_clarification_text, 0)
    else .ok (location_clarification_text, 0)

/-- The chat-input handler (src/app.py lines 157-189).  The user message is
appended to the history first; then the turn decision logic (`turn_step`)
runs.  The assistant message is appended only if no exception escaped; an
uncaught exception leaves the history with just the user message appended
(`st.session_state` keeps mutations made before the script run aborted). -/
def handle_turn (gen : GenModel) (jsonLoads : String → Option Json)
    (fetch : Except String Table) (current_time_str : String)
    (messages : List Msg) (prompt : String) : TurnOutcome :=
  match turn_step gen jsonLoads fetch current_time_str prompt with
  | .ok (response, composeCalls) =>
    ⟨messages ++ [⟨"user", prompt⟩] ++ [⟨"assistant", response⟩], .ok response, 1, composeCalls⟩
  | .error e => ⟨messages ++ [⟨"user", prompt⟩], .error e, 1, 0⟩

/-- The parsed object has a truthy location entry (the gate that sends the
handler into the recommendation branch). -/
def location_usable (fields : List (String × Json)) : Bool :=
  match fields.lookup "location" with
  | some v => pyTruthy v
  | none => false

/-- The parsed object carries the two remaining intent fields in the shape the
handler consumes without raising: some budget entry, and a string craving. -/
def full_shape (fields : List (String × Json)) : Bool :=
  (fields.lookup "budget").isSome &&
    (match fields.lookup "craving" with
     | some (.str _) => true
     | _ => false)

/-- A parsed extraction reply the handler can process without an uncaught
exception: a falsy value (treated like an extraction failure), or an object
that is either unusable (missing or falsy location, answered by the fixed
clarification) or a fully shaped intent. -/
def safe_intent (j : Json) : Bool :=
  !(pyTruthy j) ||
    (match j with
     | .obj fields => !(location_usable fields) || full_shape fields
     | _ => false)

/-- A model oracle that ignores its prompt and replies with a JSON object
carrying only a location field: no budget, no craving. -/
def gen_partial : GenModel := fun _ => .ok "\x7b\"location\": \"CST\"\x7d"

/-- `json.loads` restricted to the reply of `gen_partial`. -/
def jl_partial : String → Option Json := fun s =>
  if s = "\x7b\"location\": \"CST\"\x7d" then some (Json.obj [("location", Json.str "CST")])
  else none

/-- A fully shaped intent object, as the extraction instruction mandates. -/
def full_intent : Json :=
  Json.obj [("location", Json.str "CST"), ("budget", Json.num 200), ("craving", Json.str "cheesy")]

/-- A model oracle that always replies with a complete intent object. -/
def gen_full : GenModel := fun _ =>
  .ok "\x7b\"location\": \"CST\", \"budget\": 200, \"craving\": \"cheesy\"\x7d"

/-- `json.loads` restricted to the reply of `gen_full`. -/
def jl_full : String → Option Json := fun s =>
  if s = "\x7b\"location\": \"CST\", \"budget\": 200, \"craving\": \"cheesy\"\x7d" then some full_intent
  else none

/-- A one-row dataset used to exercise the non-empty-table paths. -/
def demo_table : Table :=
  [[("dish_name", Json.str "Vada Pav"), ("stall_name", Json.str "Ashok"), ("price", Json.num 25)]]

/-- A model oracle replying with an intent whose location is JSON `null`. -/
def gen_null_loc : GenModel := fun _ => .ok "\x7b\"location\": null\x7d"

/-- A model oracle wrapping the same reply in a Markdown code fence. -/
def gen_fenced : GenModel := fun _ => .ok "```json\n\x7b\"location\": null\x7d\n```"

/-- `json.loads` restricted to the (stripped) reply of `gen_null_loc` and
`gen_fenced`. -/
def jl_null_loc : String → Option Json := fun s =>
  if s = "\x7b\"location\": null\x7d" then some (Json.obj [("location", Json.null)])
  else none

/-- A model oracle replying with an intent whose location is the empty
string: falsy in Python, but not null. -/
def gen_empty_loc : GenModel := fun _ => .ok "\x7b\"location\": \"\"\x7d"

/-- `json.loads` restricted to the reply of `gen_empty_loc`. -/
def jl_empty_loc : String → Option Json := fun s =>
  if s = "\x7b\"location\": \"\"\x7d" then some (Json.obj [("location", Json.str "")])
  else none

/-- A model transport that always fails (service outage). -/
def gen_down : GenModel := fun _ => .error "service unavailable"

/-- A model oracle that disobeys the default rules: for an utterance with no
budget it still invents a budget of 50 and a craving of pizza. -/
def gen_budget50 : GenModel := fun _ =>
  .ok "\x7b\"location\": \"CST\", \"budget\": 50, \"craving\": \"pizza\"\x7d"

/-- `json.loads` restricted to the reply of `gen_budget50`. -/
def jl_budget50 : String → Option Json := fun s =>
  if s = "\x7b\"location\": \"CST\", \"budget\": 50, \"craving\": \"pizza\"\x7d" then
    some (Json.obj [("location", Json.str "CST"), ("budget", Json.num 50), ("craving", Json.str "pizza")])
  else none

/-- Helper: when extraction fails, the turn step answers the fixed
clarification and the composer is never consulted. -/
theorem turn_step_extract_none (gen : GenModel) (jl : String → Option Json)
    (fetch : Except String Table) (t p : String)
    (hx : extract_user_info gen jl p = none) :
    turn_step gen jl fetch t p = .ok (location_clarification_text, 0) := by
  unfold turn_step
  rw [hx]

/-- Helper: when extraction parses to an object whose location entry is falsy,
the turn step answers the fixed clarification and the composer is never
consulted. -/
theorem turn_step_loc_falsy (gen : GenModel) (jl : String → Option Json)
    (fetch : Except String Table) (t p : String)
    (fields : List (String × Json)) (v : Json)
    (hx : extract_user_info gen jl p = some (Json.obj fields))
    (hloc : fields.lookup "location" = some v)
    (hv : pyTruthy v = false) :
    turn_step gen jl fetch t p = .ok (location_clarification_text, 0) := by
  have hne : fields ≠ [] := by
    intro hnil
    rw [hnil, List.lookup_nil] at hloc
    exact Option.noConfusion hloc
  obtain ⟨a, l, rfl⟩ := List.exists_cons_of_ne_nil hne
  unfold turn_step
  rw [hx]
  simp [show pyTruthy (Json.obj (a :: l)) = true from rfl, dict_get, hloc, hv]

/-- Helper: the observable turn outcome determined by a successful turn step. -/
theorem handle_turn_of_step_ok (gen : GenModel) (jl : String → Option Json)
    (fetch : Except String Table) (t : String) (msgs : List Msg) (p : String)
    (resp : String) (cc : Nat)
    (hs : turn_step gen jl fetch t p = .ok (resp, cc)) :
    handle_turn gen jl fetch t msgs p =
      ⟨msgs ++ [⟨"user", p⟩] ++ [⟨"assistant", resp⟩], .ok resp, 1, cc⟩ := by
  unfold handle_turn
  rw [hs]

/-- Claim C1: for every intent (any location, budget and craving value) and
any time context, when the dataset table is empty the recommendation composer
returns the fixed database-unavailable message and performs no model call
(the call count of the returned pair is 0). -/
theorem get_recommendations_empty_db (gen : GenModel) (location budget craving : Json)
    (t : String) :
    get_recommendations gen location budget craving [] t = .ok (db_unavailable_text, 0) := rfl

/-- Claim C3: whatever the dataset fetch does — succeed with a table, or raise
for any reason (missing source URL, fetch error, parse error, all folded into
the `.error` case) — `load_data` returns a table and never propagates the
exception: the successful table on success, the empty table on failure. -/
theorem load_data_never_fails :
    (∀ df : Table, load_data (Except.ok df) = df) ∧
    (∀ e : String, load_data (Except.error e) = ([] : Table)) :=
  ⟨fun _ => rfl, fun _ => rfl⟩

/-- Claim C2: for every utterance whose extracted intent is an object with a
null location, the pipeline never invokes the recommendation composer (zero
composer model calls) and responds with the fixed clarification message
asking for the location. -/
theorem pipeline_null_location_short_circuits (gen : GenModel)
    (jl : String → Option Json) (fetch : Except String Table)
    (t : String) (msgs : List Msg) (p : String)
    (fields : List (String × Json))
    (hx : extract_user_info gen jl p = some (Json.obj fields))
    (hloc : fields.lookup "location" = some Json.null) :
    (handle_turn gen jl fetch t msgs p).result = .ok location_clarification_text ∧
    (handle_turn gen jl fetch t msgs p).compose_calls = 0 := by
  have hs := turn_step_loc_falsy gen jl fetch t p fields Json.null hx hloc rfl
  rw [handle_turn_of_step_ok gen jl fetch t msgs p _ _ hs]
  exact ⟨rfl, rfl⟩

/-- Witness for C2: a concrete model reply with a null location makes the
pipeline answer the clarification with zero composer calls. -/
theorem pipeline_null_location_witness :
    (handle_turn gen_null_loc jl_null_loc (.ok demo_table) "9:30 AM on a Monday"
        initial_messages "I want pizza").result = .ok location_clarification_text ∧
    (handle_turn gen_null_loc jl_null_loc (.ok demo_table) "9:30 AM on a Monday"
        initial_messages "I want pizza").compose_calls = 0 :=
  pipeline_null_location_short_circuits gen_null_loc jl_null_loc (.ok demo_table)
    "9:30 AM on a Monday" initial_messages "I want pizza" [("location", Json.null)] rfl rfl

/-- Claim C9: the usability gate tests Python truthiness, not merely
non-nullness: for every extraction result whose location entry is falsy but
not null (for example the empty string, 0, or false), the pipeline
short-circuits with the same location clarification and never invokes the
composer. -/
theorem pipeline_falsy_location_short_circuits (gen : GenModel)
    (jl : String → Option Json) (fetch : Except String Table)
    (t : String) (msgs : List Msg) (p : String)
    (fields : List (String × Json)) (v : Json)
    (hx : extract_user_info gen jl p = some (Json.obj fields))
    (hloc : fields.lookup "location" = some v)
    (_hnn : v ≠ Json.null)
    (hv : pyTruthy v = false) :
    (handle_turn gen jl fetch t msgs p).result = .ok location_clarification_text ∧
    (handle_turn gen jl fetch t msgs p).compose_calls = 0 := by
  have hs := turn_step_loc_falsy gen jl fetch t p fields v hx hloc hv
  rw [handle_turn_of_step_ok gen jl fetch t msgs p _ _ hs]
  exact ⟨rfl, rfl⟩

/-- Witness for C9: a concrete model reply whose location is the empty string
(falsy, not null) is short-circuited to the clarification with zero composer
calls. -/
theorem pipeline_falsy_location_witness :
    (handle_turn gen_empty_loc jl_empty_loc (.ok demo_table) "9:30 AM on a Monday"
        initial_messages "I want pizza").result = .ok location_clarification_text ∧
    (handle_turn gen_empty_loc jl_empty_loc (.ok demo_table) "9:30 AM on a Monday"
        initial_messages "I want pizza").compose_calls = 0 :=
  pipeline_falsy_location_short_circuits gen_empty_loc jl_empty_loc (.ok demo_table)
    "9:30 AM on a Monday" initial_messages "I want pizza" [("location", Json.str "")]
    (Json.str "") rfl rfl (fun h => Json.noConfusion h) rfl

/-- Claim C10: on every turn on which extraction fails (the extractor returns
the failure value), the assistant message appended to the history is exactly
the missing-location clarification text — the same response as for a null
location — and the composer is never invoked (zero composer model calls). -/
theorem extraction_failure_clarification (gen : GenModel)
    (jl : String → Option Json) (fetch : Except String Table)
    (t : String) (msgs : List Msg) (p : String)
    (hx : extract_user_info gen jl p = none) :
    handle_turn gen jl fetch t msgs p =
      ⟨msgs ++ [⟨"user", p⟩] ++ [⟨"assistant", location_clarification_text⟩],
        .ok location_clarification_text, 1, 0⟩ :=
  handle_turn_of_step_ok gen jl fetch t msgs p location_clarification_text 0
    (turn_step_extract_none gen jl fetch t p hx)

/-- Witness for C10: a concrete transport outage makes the turn append exactly
the clarification as the assistant message, with zero composer calls. -/
theorem extraction_failure_clarification_witness :
    handle_turn gen_down jl_full (.ok demo_table) "9:30 AM on a Monday"
        initial_messages "hi" =
      ⟨initial_messages ++ [⟨"user", "hi"⟩] ++ [⟨"assistant", location_clarification_text⟩],
        .ok location_clarification_text, 1, 0⟩ :=
  extraction_failure_clarification gen_down jl_full (.ok demo_table) "9:30 AM on a Monday"
    initial_messages "hi" rfl

/-- Claim C4: the extractor strips code-fence markers from the model reply and
then attempts a JSON parse on the result; every reply that does not parse as
JSON after stripping yields the failure value `none`, and so does every
model/transport error — the exceptions are caught, never propagated. -/
theorem extract_fence_strip_then_parse (gen : GenModel) (jl : String → Option Json)
    (u : String) :
    (∀ text, gen (extract_prompt u) = .ok text →
      extract_user_info gen jl u = jl (strip_json_reply text)) ∧
    (∀ text, gen (extract_prompt u) = .ok text → jl (strip_json_reply text) = none →
      extract_user_info gen jl u = none) ∧
    (∀ e, gen (extract_prompt u) = .error e → extract_user_info gen jl u = none) := by
  refine ⟨?_, ?_, ?_⟩
  · intro text h
    unfold extract_user_info
    rw [h]
  · intro text h h2
    unfold extract_user_info
    rw [h]
    exact h2
  · intro e h
    unfold extract_user_info
    rw [h]

/-- Witness for C4: a concrete reply wrapped in a ```json fence is stripped to
the bare object and parsed; the same parser applied to a non-JSON reply gives
the failure value. -/
theorem extract_fence_strip_witness :
    extract_user_info gen_fenced jl_null_loc "hi" = some (Json.obj [("location", Json.null)]) ∧
    extract_user_info gen_partial jl_null_loc "hi" = none := by
  constructor
  · have h := (extract_fence_strip_then_parse gen_fenced jl_null_loc "hi").1
      "```json\n\x7b\"location\": null\x7d\n```" rfl
    rw [h]
    rfl
  · have h := (extract_fence_strip_then_parse gen_partial jl_null_loc "hi").2.1
      "\x7b\"location\": \"CST\"\x7d" rfl rfl
    exact h

set_option maxRecDepth 4096 in
/-- The two craving-instruction branches are never textually equal, whatever
the craving: the texts differ at character index 12. -/
theorem mood_instruction_ne_iconic (c : String) :
    mood_instruction c ≠ iconic_instruction := by
  intro h
  have hd := congrArg String.data h
  unfold mood_instruction at hd
  rw [String.data_append, String.data_append] at hd
  have h12 : (("The user is in the mood for \x27".data ++ c.data) ++
      "\x27.".data)[12]? = iconic_instruction.data[12]? := by rw [hd]
  have h29 : "The user is in the mood for \x27".data.length = 29 := by decide
  have hlt1 : (12 : Nat) < ("The user is in the mood for \x27".data ++ c.data).length := by
    rw [List.length_append, h29]
    omega
  rw [List.getElem?_append_left hlt1] at h12
  have hlt2 : (12 : Nat) < "The user is in the mood for \x27".data.length := by
    rw [h29]
    omega
  rw [List.getElem?_append_left hlt2] at h12
  exact absurd h12 (by decide)

/-- Counterexample to claim C5 as stated: with the craving "Anything" the
composer selects the iconic/popular branch even though the craving does not
equal the sentinel "anything" — the source compares `craving.lower()`. -/
theorem craving_branch_counterexample :
    craving_instruction "Anything" = iconic_instruction ∧ "Anything" ≠ "anything" :=
  ⟨rfl, by decide⟩

/-- Claim C5 (amended): for every craving string, the composer (which builds
its prompt with `craving_instruction`) selects the iconic/popular-items
branch if and only if the craving lowercased equals the sentinel "anything" —
the comparison is case-insensitive; in every other case it selects the branch
instructing the model to match the stated craving. -/
theorem craving_branch_iff (c : String) :
    (craving_instruction c = iconic_instruction ↔ pyLower c = "anything") ∧
    (pyLower c ≠ "anything" → craving_instruction c = mood_instruction c) := by
  refine ⟨⟨?_, ?_⟩, ?_⟩
  · intro h
    by_contra hne
    unfold craving_instruction at h
    rw [if_neg hne] at h
    exact mood_instruction_ne_iconic c h
  · intro h
    unfold craving_instruction
    rw [if_pos h]
  · intro h
    unfold craving_instruction
    rw [if_neg h]

/-- Claim C7 (amended): the extraction instruction sent with every utterance
contains the rule lines directing the model to default the budget to 100 INR
and the craving to "anything" when they are unstated (`budget_rule` and
`craving_rule` are those literal lines); the code itself performs no post-hoc
enforcement of the defaults on the returned intent — see the counterexample
theorem, where a non-compliant model reply is accepted verbatim. -/
theorem extraction_rules_encode_defaults (u : String) :
    ∃ p q r, extract_prompt u = p ++ budget_rule ++ q ++ craving_rule ++ r :=
  ⟨extract_rules_head, "\n    ",
    "\n\n    USER MESSAGE: \"" ++ (u ++ "\"\n    "), by
    unfold extract_prompt
    rw [String.append_assoc, String.append_assoc]⟩

/-- Counterexample to claim C7 as stated: the utterance "hello" mentions no
budget and no craving, yet with a model oracle that disobeys the instruction
the produced intent has budget 50 and craving "pizza" — the extractor passes
the parsed reply through unchanged, so budget = 100 and craving = "anything"
hold only if the external model obeys the instruction. -/
theorem extraction_default_counterexample :
    extract_user_info gen_budget50 jl_budget50 "hello" =
      some (Json.obj [("location", Json.str "CST"), ("budget", Json.num 50),
        ("craving", Json.str "pizza")]) ∧
    Json.num 50 ≠ Json.num 100 := by
  refine ⟨rfl, ?_⟩
  intro h
  injection h with h2
  exact absurd h2 (by decide)

/-- Helper: on a non-empty table and a string craving, the composer always
returns a response — the model reply on success, the apology on a model
error — and makes exactly one model call. -/
theorem get_recommendations_nonempty_calls (gen : GenModel) (loc bud : Json)
    (s : String) (fd : Table) (t : String) (hne : fd.isEmpty = false) :
    ∃ resp cc, get_recommendations gen loc bud (.str s) fd t = .ok (resp, cc) ∧ cc ≤ 1 := by
  unfold get_recommendations
  simp only [hne, Bool.false_eq_true, if_false]
  cases gen (rec_prompt loc bud (craving_instruction s) t (table_to_json fd)) with
  | ok text => exact ⟨text, 1, rfl, Nat.le_refl 1⟩
  | error e =>
    exact ⟨"Sorry, boss! Couldn\x27t get a recommendation right now. Error: " ++ e, 1,
      rfl, Nat.le_refl 1⟩

/-- Claim C6 (amended): whenever every successfully parsed extraction reply is
a `safe_intent` — falsy, or an object that is either unusable (missing or
falsy location) or a fully shaped intent with a string craving, which is all
the instruction-obeying replies and all four enumerated failure modes
(extraction failure, missing location, empty dataset, composer error) — the
turn performs no retry, makes at most one model round-trip per stage, and
always yields an assistant response.  Without that shape restriction the turn
can end in an uncaught exception: see the counterexample theorem. -/
theorem turn_always_answers (gen : GenModel) (jl : String → Option Json)
    (fetch : Except String Table) (t : String) (msgs : List Msg) (p : String)
    (hsafe : ∀ j, extract_user_info gen jl p = some j → safe_intent j = true) :
    (∃ r, (handle_turn gen jl fetch t msgs p).result = .ok r) ∧
    (handle_turn gen jl fetch t msgs p).extract_calls ≤ 1 ∧
    (handle_turn gen jl fetch t msgs p).compose_calls ≤ 1 := by
  have hstep : ∃ resp cc, turn_step gen jl fetch t p = .ok (resp, cc) ∧ cc ≤ 1 := by
    unfold turn_step
    cases hx : extract_user_info gen jl p with
    | none => exact ⟨location_clarification_text, 0, rfl, Nat.zero_le 1⟩
    | some j =>
      have hs := hsafe j hx
      cases htr : pyTruthy j with
      | false =>
        simp only [htr, Bool.false_eq_true, if_false]
        exact ⟨location_clarification_text, 0, rfl, Nat.zero_le 1⟩
      | true =>
        cases j with
        | null => simp [safe_intent, htr] at hs
        | bool b => simp [safe_intent, htr] at hs
        | num n => simp [safe_intent, htr] at hs
        | str s => simp [safe_intent, htr] at hs
        | arr elems => simp [safe_intent, htr] at hs
        | obj fields =>
          simp only [htr, if_true]
          cases hl : fields.lookup "location" with
          | none => exact ⟨location_clarification_text, 0, by simp [dict_get, hl], Nat.zero_le 1⟩
          | some v =>
            cases hv : pyTruthy v with
            | false =>
              refine ⟨location_clarification_text, 0, ?_, Nat.zero_le 1⟩
              simp [dict_get, hl, hv]
            | true =>
              have hlu : location_usable fields = true := by
                unfold location_usable
                rw [hl]
                exact hv
              have hfull : full_shape fields = true := by
                simp [safe_intent, htr, hlu] at hs
                exact hs
              unfold full_shape at hfull
              rw [Bool.and_eq_true] at hfull
              obtain ⟨hb, hc⟩ := hfull
              cases hbv : fields.lookup "budget" with
              | none => rw [hbv] at hb; simp at hb
              | some b =>
                cases hcv : fields.lookup "craving" with
                | none => rw [hcv] at hc; simp at hc
                | some cv =>
                  cases cv with
                  | null => rw [hcv] at hc; simp at hc
                  | bool b2 => rw [hcv] at hc; simp at hc
                  | num n2 => rw [hcv] at hc; simp at hc
                  | arr el2 => rw [hcv] at hc; simp at hc
                  | obj f2 => rw [hcv] at hc; simp at hc
                  | str s =>
                    simp only [dict_get, dict_item, hl, hv, hbv, hcv, if_true]
                    cases hfd : (load_data fetch).isEmpty with
                    | true =>
                      refine ⟨db_unavailable_text, 0, ?_, Nat.zero_le 1⟩
                      unfold get_recommendations
                      simp [hfd]
                    | false =>
                      exact get_recommendations_nonempty_calls gen v b s (load_data fetch) t hfd
  obtain ⟨resp, cc, hstepEq, hcc⟩ := hstep
  rw [handle_turn_of_step_ok gen jl fetch t msgs p resp cc hstepEq]
  exact ⟨⟨resp, rfl⟩, Nat.le_refl 1, hcc⟩

/-- Witness for C6 (amended): with a compliant model reply carrying all three
fields, the turn yields a response with at most one model call per stage. -/
theorem turn_always_answers_witness :
    (∃ r, (handle_turn gen_full jl_full (.ok demo_table) "1:00 PM on a Friday"
      initial_messages "near CST").result = .ok r) ∧
    (handle_turn gen_full jl_full (.ok demo_table) "1:00 PM on a Friday"
      initial_messages "near CST").extract_calls ≤ 1 ∧
    (handle_turn gen_full jl_full (.ok demo_table) "1:00 PM on a Friday"
      initial_messages "near CST").compose_calls ≤ 1 := by
  apply turn_always_answers
  intro j hj
  rw [show extract_user_info gen_full jl_full "near CST" = some full_intent from rfl] at hj
  injection hj with h
  subst h
  rfl

/-- Counterexample to claim C6 as stated: a turn is not always answered — when
the model reply parses to an object with a truthy location but no budget key
(outside the four enumerated failure modes), the handler evaluates
`user_info["budget"]` and the turn ends in an uncaught KeyError instead of a
response. -/
theorem turn_crash_counterexample :
    (handle_turn gen_partial jl_partial (.error "down") "12:00 PM on a Friday"
      initial_messages "hi").result = .error (.keyError "budget") := rfl

/-- Claim C8 (amended): the history starts as exactly the fixed greeting and
is append-only — the previous history is always preserved as a prefix, never
modified or removed.  A turn that completes appends exactly one user message
followed by exactly one assistant message; a turn aborted by an uncaught
exception appends only the user message (see the counterexample theorem). -/
theorem history_append_only :
    initial_messages = [⟨"assistant", greeting_text⟩] ∧
    ∀ (gen : GenModel) (jl : String → Option Json) (fetch : Except String Table)
      (t : String) (msgs : List Msg) (p : String),
      ((msgs ++ [⟨"user", p⟩]) <+: (handle_turn gen jl fetch t msgs p).messages) ∧
      (∀ r, (handle_turn gen jl fetch t msgs p).result = .ok r →
        (handle_turn gen jl fetch t msgs p).messages =
          msgs ++ [⟨"user", p⟩] ++ [⟨"assistant", r⟩]) ∧
      (∀ e, (handle_turn gen jl fetch t msgs p).result = .error e →
        (handle_turn gen jl fetch t msgs p).messages = msgs ++ [⟨"user", p⟩]) := by
  refine ⟨rfl, fun gen jl fetch t msgs p => ?_⟩
  unfold handle_turn
  cases turn_step gen jl fetch t p with
  | ok rc =>
    obtain ⟨resp, cc⟩ := rc
    refine ⟨⟨[⟨"assistant", resp⟩], rfl⟩, ?_, ?_⟩
    · intro r hr
      cases hr
      rfl
    · intro e he
      exact Except.noConfusion he
  | error e2 =>
    refine ⟨⟨[], List.append_nil _⟩, ?_, ?_⟩
    · intro r hr
      exact Except.noConfusion hr
    · intro e he
      rfl

/-- Witness for C8 (amended): a concrete completed turn appends exactly the
user message and then the assistant response to the greeting-only history. -/
theorem history_append_only_witness :
    initial_messages = [⟨"assistant", greeting_text⟩] ∧
    (handle_turn gen_full jl_full (.ok demo_table) "1:00 PM on a Friday"
        initial_messages "near CST").messages =
      initial_messages ++ [⟨"user", "near CST"⟩] ++
        [⟨"assistant", "\x7b\"location\": \"CST\", \"budget\": 200, \"craving\": \"cheesy\"\x7d"⟩] :=
  ⟨history_append_only.1,
    (history_append_only.2 gen_full jl_full (.ok demo_table) "1:00 PM on a Friday"
        initial_messages "near CST").2.1
      "\x7b\"location\": \"CST\", \"budget\": 200, \"craving\": \"cheesy\"\x7d" rfl⟩

/-- Counterexample to claim C8 as stated: a turn aborted by the uncaught
KeyError appends only the user message — no assistant message follows it, so
not every turn appends a user/assistant pair. -/
theorem history_turn_counterexample :
    (handle_turn gen_partial jl_partial (.error "down") "12:00 PM on a Friday"
        initial_messages "hi").messages = initial_messages ++ [⟨"user", "hi"⟩] ∧
    (handle_turn gen_partial jl_partial (.error "down") "12:00 PM on a Friday"
        initial_messages "hi").result = .error (.keyError "budget") :=
  ⟨rfl, rfl⟩
